import Mathlib

/-!
Verification of the countersyncd process coordinator (`src/countersyncd/src/main.rs`)
and the IPFIX data-record decoding described by the design document.

The coordinator (`main`) is embedded as a pure function from its command-line
arguments and the outcomes of the external actor run loops to the ordered list
of coordination events it performs (channel creation, reporter construction or
statistics-receiver drop, task spawns, task joins, exit computation) together
with the process exit result.  The per-actor run-loop outcomes are parameters
of type `Except E Unit`, mirroring the awaited join results in `main`.
-/

namespace Countersyncd

/-- Log level filter, mirroring the `log::LevelFilter` values selected by
`init_logging`. -/
inductive LevelFilter
  | trace
  | debug
  | info
  | warn
  | error
deriving DecidableEq

/-- Log output format selected by `init_logging` (`simple` or `full`; any other
string falls back to `full`). -/
inductive LogFormat
  | simple
  | full
deriving DecidableEq

/-- The logging configuration installed by `init_logging`. -/
structure LogConfig where
  level : LevelFilter
  format : LogFormat
deriving DecidableEq

/-- Lowercasing of a configuration string, as `to_lowercase` behaves on the
ASCII level and format names; embedded over the character list. -/
def lowercase (s : String) : String :=
  String.mk (s.data.map Char.toLower)

/-- The level match of `init_logging`: the lowercased argument selects one of
the five known levels, anything else falls back to `Info`. -/
def parseLogLevel (log_level : String) : LevelFilter :=
  let s := lowercase log_level
  if s = "trace" then LevelFilter.trace
  else if s = "debug" then LevelFilter.debug
  else if s = "info" then LevelFilter.info
  else if s = "warn" then LevelFilter.warn
  else if s = "error" then LevelFilter.error
  else LevelFilter.info

/-- The format match of `init_logging`: `simple` or `full`, with any other
string falling back to the `full` format. -/
def parseLogFormat (log_format : String) : LogFormat :=
  let s := lowercase log_format
  if s = "simple" then LogFormat.simple
  else if s = "full" then LogFormat.full
  else LogFormat.full

/-- `init_logging(log_level, log_format)`: total, always installs a
configuration and never fails. -/
def init_logging (log_level log_format : String) : LogConfig :=
  { level := parseLogLevel log_level
    format := parseLogFormat log_format }

/-- The command-line arguments of the daemon (struct `Args` in `main.rs`).
`stats_interval` is a `u64` count of seconds and `max_stats_per_report` a
`u32`; neither is subjected to arithmetic, so both are embedded as `Nat`. -/
structure Args where
  enable_stats : Bool
  stats_interval : Nat
  detailed_stats : Bool
  max_stats_per_report : Nat
  log_level : String
  log_format : String
deriving DecidableEq

/-- The configuration handed to `StatsReporterActor::new` (struct
`StatsReporterConfig`); `interval` is kept in seconds, as passed to
`Duration::from_secs`. -/
structure StatsReporterConfig where
  interval : Nat
  detailed : Bool
  max_stats_per_report : Option Nat
deriving DecidableEq

/-- Construction of the reporter configuration from the arguments
(`main.rs` lines 162–170): `max_stats_per_report == 0` becomes `None`
(unlimited) and any other value `n` becomes `Some n`. -/
def mkStatsReporterConfig (args : Args) : StatsReporterConfig :=
  { interval := args.stats_interval
    detailed := args.detailed_stats
    max_stats_per_report :=
      if args.max_stats_per_report = 0 then none
      else some args.max_stats_per_report }

/-- The four actors spawned by `main`. -/
inductive ActorKind
  | netlink
  | ipfix
  | swss
  | reporter
deriving DecidableEq

deriving instance DecidableEq for Except

/-- The coordination events `main` performs, in program order: channel
creation with its capacity, reporter construction (stats enabled) or dropping
of the statistics receiver (stats disabled), task spawning, awaiting a task's
join result, and computing the exit result. -/
inductive Event (E : Type)
  | createChannel (name : String) (capacity : Nat)
  | constructReporter (cfg : StatsReporterConfig)
  | dropStatsReceiver
  | spawnActor (a : ActorKind)
  | joinActor (a : ActorKind) (result : Except E Unit)
  | computeExit (result : Except E Unit)
deriving DecidableEq

/-- Recognizer for channel-creation events. -/
def isCreateChannel {E : Type} : Event E → Bool
  | Event.createChannel _ _ => true
  | _ => false

/-- The channels created by `main` (lines 135–138): command, socket and
template channels with capacity 1, statistics channel with capacity 100. -/
def channelEvents (E : Type) : List (Event E) :=
  [Event.createChannel "command" 1,
   Event.createChannel "socket" 1,
   Event.createChannel "ipfix_template" 1,
   Event.createChannel "saistats" 100]

/-- The result match of `main` when the stats reporter was enabled
(lines 223–244): all-ok succeeds; otherwise the arms are tried in order
netlink, ipfix, swss, reporter. -/
def combineEnabled {E : Type} (rn ri rs rr : Except E Unit) : Except E Unit :=
  match rn, ri, rs, rr with
  | Except.ok _, Except.ok _, Except.ok _, Except.ok _ => Except.ok ()
  | Except.error e, _, _, _ => Except.error e
  | _, Except.error e, _, _ => Except.error e
  | _, _, Except.error e, _ => Except.error e
  | _, _, _, Except.error e => Except.error e

/-- The result match of `main` when the stats reporter was disabled
(lines 246–263): all-ok succeeds; otherwise the arms are tried in order
netlink, ipfix, swss. -/
def combineDisabled {E : Type} (rn ri rs : Except E Unit) : Except E Unit :=
  match rn, ri, rs with
  | Except.ok _, Except.ok _, Except.ok _ => Except.ok ()
  | Except.error e, _, _ => Except.error e
  | _, Except.error e, _ => Except.error e
  | _, _, Except.error e => Except.error e

/-- The coordinator `main`, embedded as a function of the arguments, the
outcome of `SwssActor::new` and the four actor run-loop outcomes; it yields
the ordered coordination event trace together with the exit result.
Program order follows `main.rs`: channels are created first; a failing
`SwssActor::new` (line 152) returns its error before anything is spawned;
otherwise the reporter is constructed (stats enabled) or the statistics
receiver dropped (stats disabled) before the tasks are spawned, every spawned
task is awaited, and the exit result is computed from the join results. -/
def mainRun {E : Type} (args : Args) (swssNew : Except E Unit)
    (rn ri rs rr : Except E Unit) : List (Event E) × Except E Unit :=
  match swssNew with
  | Except.error e => (channelEvents E, Except.error e)
  | Except.ok _ =>
    if args.enable_stats then
      let r := combineEnabled rn ri rs rr
      (channelEvents E ++
        [Event.constructReporter (mkStatsReporterConfig args),
         Event.spawnActor ActorKind.netlink,
         Event.spawnActor ActorKind.ipfix,
         Event.spawnActor ActorKind.swss,
         Event.spawnActor ActorKind.reporter,
         Event.joinActor ActorKind.netlink rn,
         Event.joinActor ActorKind.ipfix ri,
         Event.joinActor ActorKind.swss rs,
         Event.joinActor ActorKind.reporter rr,
         Event.computeExit r], r)
    else
      let r := combineDisabled rn ri rs
      (channelEvents E ++
        [Event.dropStatsReceiver,
         Event.spawnActor ActorKind.netlink,
         Event.spawnActor ActorKind.ipfix,
         Event.spawnActor ActorKind.swss,
         Event.joinActor ActorKind.netlink rn,
         Event.joinActor ActorKind.ipfix ri,
         Event.joinActor ActorKind.swss rs,
         Event.computeExit r], r)

/-- Specification-side definition: the first error among the actor results
listed in the fixed actor-priority order (frame source, decode, template
source, reporting), as worded in §4.4 of the design document. -/
def specFirstError {E : Type} (results : List (Except E Unit)) : Option E :=
  results.findSome? fun r =>
    match r with
    | Except.error e => some e
    | Except.ok _ => none

/-- Modelled from the spec: the sender-visible state of a bounded mpsc
channel (the source's channel implementation is external to the repository).
A closed channel (receiver dropped) rejects a send immediately; a live
channel accepts when below capacity and suspends the sender when full. -/
structure ChannelState where
  capacity : Nat
  queued : Nat
  receiverAlive : Bool
deriving DecidableEq

/-- Outcome of attempting a send on a bounded channel. -/
inductive SendOutcome
  | delivered
  | closed
  | wouldBlock
deriving DecidableEq

/-- Modelled from the spec: a send on a channel whose receiver was dropped
returns immediately with a closed-channel error; only a full channel with a
live receiver suspends the sender. -/
def trySend (c : ChannelState) : SendOutcome :=
  if c.receiverAlive = false then SendOutcome.closed
  else if c.queued < c.capacity then SendOutcome.delivered
  else SendOutcome.wouldBlock

/-- One field of an IPFIX template: information element id, fixed byte
length, and the SAI counter name it binds to (§3 of the design document). -/
structure FieldSpec where
  information_element_id : Nat
  byte_length : Nat
  sai_counter_name : String
deriving DecidableEq

/-- Network-byte-order (big-endian) unsigned integer value of a byte list. -/
def beValue : List Nat → Nat
  | [] => 0
  | b :: rest => b * 256 ^ rest.length + beValue rest

/-- Modelled from the spec (the IPFIX decoding actor is not part of the
repository slice): decode one data record against a template's ordered
field specs, consuming `byte_length` bytes per field at the offset
determined by field order and binding the network-byte-order value to the
field's counter name; a record shorter than the sum of the field lengths is
dropped (`none`), never padded. -/
def decodeRecord : List FieldSpec → List Nat → Option (List (String × Nat))
  | [], _ => some []
  | f :: rest, bytes =>
    if bytes.length < f.byte_length then none
    else
      match decodeRecord rest (bytes.drop f.byte_length) with
      | none => none
      | some xs => some ((f.sai_counter_name, beValue (bytes.take f.byte_length)) :: xs)

/-- The total byte size of one data record under a template. -/
def recordSize (t : List FieldSpec) : Nat :=
  (t.map fun f => f.byte_length).sum

/-- Fuelled worker for `decodeDataSet`: repeatedly decode concatenated data
records; a truncated tail is dropped. -/
def decodeDataSetAux (t : List FieldSpec) (fuel : Nat) (bytes : List Nat) :
    List (List (String × Nat)) :=
  match fuel, bytes with
  | 0, _ => []
  | _ + 1, [] => []
  | fuel + 1, b :: bs =>
    match decodeRecord t (b :: bs) with
    | none => []
    | some r => r :: decodeDataSetAux t fuel ((b :: bs).drop (recordSize t))

/-- Modelled from the spec: decode a Data Set's payload as a sequence of
concatenated data records sharing one template, each yielding one
independent statistics record; a trailing partial record is dropped. -/
def decodeDataSet (t : List FieldSpec) (bytes : List Nat) :
    List (List (String × Nat)) :=
  decodeDataSetAux t (bytes.length + 1) bytes

/-- A sample argument vector with stats reporting enabled; the remaining
fields carry the command-line defaults. -/
def argsStatsOn : Args :=
  { enable_stats := true
    stats_interval := 10
    detailed_stats := true
    max_stats_per_report := 20
    log_level := "info"
    log_format := "full" }

/-- The default argument vector: stats reporting disabled. -/
def argsStatsOff : Args :=
  { enable_stats := false
    stats_interval := 10
    detailed_stats := true
    max_stats_per_report := 20
    log_level := "info"
    log_format := "full" }

/-- A sample argument vector with stats enabled and `max_stats_per_report`
set to `0` (unlimited). -/
def argsUnlimited : Args :=
  { enable_stats := true
    stats_interval := 10
    detailed_stats := true
    max_stats_per_report := 0
    log_level := "info"
    log_format := "full" }

/-- C1: whenever at least one actor join result is an error, the exit error
computed by `main` (stats reporter enabled) is the error of the
highest-priority failing actor in the fixed order netlink (frame source),
ipfix (decode), swss (template source), reporter (reporting). -/
theorem exit_error_priority_order {E : Type} (args : Args)
    (rn ri rs rr : Except E Unit) (e : E)
    (hs : args.enable_stats = true)
    (h : specFirstError [rn, ri, rs, rr] = some e) :
    (mainRun args (Except.ok ()) rn ri rs rr).2 = Except.error e := by
  cases rn <;> cases ri <;> cases rs <;> cases rr <;>
    simp_all [mainRun, specFirstError, combineEnabled, List.findSome?]

/-- Witness for C1: with the netlink actor succeeding and both the ipfix and
swss actors failing, the reported error is the ipfix one (the
higher-priority failing actor). -/
theorem exit_error_priority_order_witness :
    argsStatsOn.enable_stats = true ∧
    specFirstError [Except.ok (), Except.error "ipfix transport error",
        Except.error "swss transport error", (Except.ok () : Except String Unit)]
      = some "ipfix transport error" ∧
    (mainRun argsStatsOn (Except.ok ()) (Except.ok ())
        (Except.error "ipfix transport error")
        (Except.error "swss transport error") (Except.ok ())).2
      = Except.error "ipfix transport error" :=
  ⟨rfl, rfl,
    exit_error_priority_order argsStatsOn (Except.ok ())
      (Except.error "ipfix transport error")
      (Except.error "swss transport error") (Except.ok ())
      "ipfix transport error" rfl rfl⟩

/-- C2: after a successful startup, the process exits successfully if and
only if every spawned actor's join result is ok (the reporter's result
counting only when stats reporting was enabled); any error among them makes
`main` return an error. -/
theorem exit_ok_iff_all_actors_ok {E : Type} (args : Args)
    (rn ri rs rr : Except E Unit) :
    (mainRun args (Except.ok ()) rn ri rs rr).2 = Except.ok () ↔
      (rn = Except.ok () ∧ ri = Except.ok () ∧ rs = Except.ok () ∧
        (args.enable_stats = true → rr = Except.ok ())) := by
  by_cases hs : args.enable_stats <;>
    cases rn <;> cases ri <;> cases rs <;> cases rr <;>
      simp_all [mainRun, combineEnabled, combineDisabled]

/-- C3: with stats reporting disabled, the statistics receiver is dropped
before any actor task is spawned, no reporter actor is spawned, a send on a
channel whose receiver is gone never suspends the sender, and the process
exits cleanly when the three remaining actors all finish without error. -/
theorem stats_disabled_behavior {E : Type} (args : Args)
    (rn ri rs rr : Except E Unit) (h : args.enable_stats = false) :
    (∃ pre post, (mainRun args (Except.ok ()) rn ri rs rr).1
        = pre ++ Event.dropStatsReceiver :: post ∧
      ∀ a, Event.spawnActor a ∉ pre) ∧
    Event.spawnActor ActorKind.reporter ∉
      (mainRun args (Except.ok ()) rn ri rs rr).1 ∧
    (∀ c : ChannelState, c.receiverAlive = false →
      trySend c ≠ SendOutcome.wouldBlock) ∧
    (rn = Except.ok () → ri = Except.ok () → rs = Except.ok () →
      (mainRun args (Except.ok ()) rn ri rs rr).2 = Except.ok ()) := by
  refine ⟨⟨channelEvents E,
      [Event.spawnActor ActorKind.netlink,
       Event.spawnActor ActorKind.ipfix,
       Event.spawnActor ActorKind.swss,
       Event.joinActor ActorKind.netlink rn,
       Event.joinActor ActorKind.ipfix ri,
       Event.joinActor ActorKind.swss rs,
       Event.computeExit (combineDisabled rn ri rs)],
      by simp [mainRun, h, channelEvents],
      by intro a; simp [channelEvents]⟩,
    by simp [mainRun, h, channelEvents],
    ?_, ?_⟩
  · intro c hc
    simp [trySend, hc]
  · intro hn hi hsw
    subst hn; subst hi; subst hsw
    simp [mainRun, h, combineDisabled]

/-- Witness for C3: the default (stats-disabled) arguments with all three
actors finishing cleanly. -/
theorem stats_disabled_behavior_witness :
    argsStatsOff.enable_stats = false ∧
    ((∃ pre post,
        (mainRun argsStatsOff (Except.ok ()) (Except.ok ()) (Except.ok ())
            (Except.ok ()) (Except.ok () : Except String Unit)).1
          = pre ++ Event.dropStatsReceiver :: post ∧
        ∀ a, Event.spawnActor a ∉ pre) ∧
      Event.spawnActor ActorKind.reporter ∉
        (mainRun argsStatsOff (Except.ok ()) (Except.ok ()) (Except.ok ())
          (Except.ok ()) (Except.ok () : Except String Unit)).1 ∧
      (∀ c : ChannelState, c.receiverAlive = false →
        trySend c ≠ SendOutcome.wouldBlock) ∧
      (Except.ok () = (Except.ok () : Except String Unit) →
        Except.ok () = (Except.ok () : Except String Unit) →
        Except.ok () = (Except.ok () : Except String Unit) →
        (mainRun argsStatsOff (Except.ok ()) (Except.ok ()) (Except.ok ())
            (Except.ok ()) (Except.ok () : Except String Unit)).2
          = Except.ok ())) :=
  ⟨rfl, stats_disabled_behavior argsStatsOff (Except.ok ()) (Except.ok ())
    (Except.ok ()) (Except.ok ()) rfl⟩

/-- C4: the coordinator creates the command, socket and template channels
with capacity exactly 1 and the statistics channel with capacity exactly
100; these are the only channels it creates. -/
theorem channel_capacities {E : Type} (args : Args)
    (swssNew rn ri rs rr : Except E Unit) :
    ((mainRun args swssNew rn ri rs rr).1.filter isCreateChannel) =
      [Event.createChannel "command" 1,
       Event.createChannel "socket" 1,
       Event.createChannel "ipfix_template" 1,
       Event.createChannel "saistats" 100] := by
  cases swssNew <;> by_cases hs : args.enable_stats <;>
    simp [mainRun, hs, channelEvents, isCreateChannel]

/-- C5: the `max_stats_per_report` argument translates to the reporter
configuration as: 0 becomes an unset limit (unlimited), and any nonzero
value n becomes a limit of exactly n. -/
theorem max_stats_per_report_translation (args : Args) :
    (args.max_stats_per_report = 0 →
      (mkStatsReporterConfig args).max_stats_per_report = none) ∧
    ∀ n, n ≠ 0 → args.max_stats_per_report = n →
      (mkStatsReporterConfig args).max_stats_per_report = some n := by
  constructor
  · intro h
    simp [mkStatsReporterConfig, h]
  · intro n hn h
    simp [mkStatsReporterConfig, h, hn]

/-- Witness for C5: the default limit 20 maps to `some 20` and the limit 0
maps to `none`. -/
theorem max_stats_per_report_translation_witness :
    (mkStatsReporterConfig argsStatsOn).max_stats_per_report = some 20 ∧
    (mkStatsReporterConfig argsUnlimited).max_stats_per_report = none :=
  ⟨(max_stats_per_report_translation argsStatsOn).2 20 (by decide) rfl,
   (max_stats_per_report_translation argsUnlimited).1 rfl⟩

/-- C6: when `SwssActor::new` fails, `main` returns that very error and its
trace contains no spawn event: no actor run loop ever starts. -/
theorem swss_init_error_before_spawn {E : Type} (args : Args) (e : E)
    (rn ri rs rr : Except E Unit) :
    (mainRun args (Except.error e) rn ri rs rr).2 = Except.error e ∧
    ∀ a, Event.spawnActor a ∉ (mainRun args (Except.error e) rn ri rs rr).1 := by
  refine ⟨rfl, ?_⟩
  intro a
  simp [mainRun, channelEvents]

/-- C7: after a successful startup the coordination trace ends with the
exit-computation event, the exit result is the one computed there, and every
actor that was spawned has its join event strictly before the exit
computation. -/
theorem all_tasks_joined_before_exit {E : Type} (args : Args)
    (rn ri rs rr : Except E Unit) :
    ∃ pre r, (mainRun args (Except.ok ()) rn ri rs rr).1
        = pre ++ [Event.computeExit r] ∧
      (mainRun args (Except.ok ()) rn ri rs rr).2 = r ∧
      ∀ a, Event.spawnActor a ∈ pre → ∃ res, Event.joinActor a res ∈ pre := by
  by_cases hs : args.enable_stats
  · refine ⟨channelEvents E ++
        [Event.constructReporter (mkStatsReporterConfig args),
         Event.spawnActor ActorKind.netlink,
         Event.spawnActor ActorKind.ipfix,
         Event.spawnActor ActorKind.swss,
         Event.spawnActor ActorKind.reporter,
         Event.joinActor ActorKind.netlink rn,
         Event.joinActor ActorKind.ipfix ri,
         Event.joinActor ActorKind.swss rs,
         Event.joinActor ActorKind.reporter rr],
      combineEnabled rn ri rs rr,
      by simp [mainRun, hs, channelEvents], by simp [mainRun, hs], ?_⟩
    intro a ha
    cases a
    · exact ⟨rn, by simp [channelEvents]⟩
    · exact ⟨ri, by simp [channelEvents]⟩
    · exact ⟨rs, by simp [channelEvents]⟩
    · exact ⟨rr, by simp [channelEvents]⟩
  · refine ⟨channelEvents E ++
        [Event.dropStatsReceiver,
         Event.spawnActor ActorKind.netlink,
         Event.spawnActor ActorKind.ipfix,
         Event.spawnActor ActorKind.swss,
         Event.joinActor ActorKind.netlink rn,
         Event.joinActor ActorKind.ipfix ri,
         Event.joinActor ActorKind.swss rs],
      combineDisabled rn ri rs,
      by simp [mainRun, hs, channelEvents], by simp [mainRun, hs], ?_⟩
    intro a ha
    cases a
    · exact ⟨rn, by simp [channelEvents]⟩
    · exact ⟨ri, by simp [channelEvents]⟩
    · exact ⟨rs, by simp [channelEvents]⟩
    · exact absurd ha (by simp [channelEvents])

/-- C8: decoding the 8-byte data record 00 00 00 05 00 00 00 07 against a
template with the two 4-byte fields rx_bytes and tx_bytes yields exactly one
record with counters rx_bytes = 5 and tx_bytes = 7, the values read in
network byte order at the offsets determined by field order. -/
theorem decode_two_field_record :
    decodeDataSet
      [⟨1, 4, "rx_bytes"⟩, ⟨2, 4, "tx_bytes"⟩]
      [0, 0, 0, 5, 0, 0, 0, 7]
      = [[("rx_bytes", 5), ("tx_bytes", 7)]] := rfl

/-- C9: any log-level string whose lowercase form is none of trace, debug,
info, warn, error makes `init_logging` fall back to the Info level; since
`init_logging` is a total function, startup proceeds normally and the
unrecognized level is never fatal. -/
theorem invalid_log_level_falls_back_to_info (log_level log_format : String)
    (h : lowercase log_level ∉
      (["trace", "debug", "info", "warn", "error"] : List String)) :
    (init_logging log_level log_format).level = LevelFilter.info := by
  simp only [List.mem_cons, List.not_mem_nil, or_false, not_or] at h
  obtain ⟨h1, h2, h3, h4, h5⟩ := h
  simp [init_logging, parseLogLevel, h1, h2, h3, h4, h5]

/-- Witness for C9: the unrecognized level string verbose yields the Info
level. -/
theorem invalid_log_level_falls_back_to_info_witness :
    lowercase "verbose" ∉
      (["trace", "debug", "info", "warn", "error"] : List String) ∧
    (init_logging "verbose" "full").level = LevelFilter.info :=
  ⟨by decide, invalid_log_level_falls_back_to_info "verbose" "full" (by decide)⟩

/-- C10: with stats reporting disabled, the stats interval, detail flag and
per-report limit are irrelevant: two runs differing only in those three
arguments produce the identical coordination trace and exit result. -/
theorem stats_args_no_effect_when_disabled {E : Type} (args : Args)
    (i : Nat) (d : Bool) (m : Nat) (swssNew rn ri rs rr : Except E Unit)
    (h : args.enable_stats = false) :
    mainRun { args with
        stats_interval := i
        detailed_stats := d
        max_stats_per_report := m } swssNew rn ri rs rr =
      mainRun args swssNew rn ri rs rr := by
  cases swssNew <;> simp [mainRun, h]

/-- Witness for C10: changing interval, detail flag and limit under disabled
stats leaves the run of `main` unchanged. -/
theorem stats_args_no_effect_when_disabled_witness :
    argsStatsOff.enable_stats = false ∧
    mainRun { argsStatsOff with
        stats_interval := 99
        detailed_stats := false
        max_stats_per_report := 7 } (Except.ok ()) (Except.ok ())
        (Except.ok ()) (Except.ok ()) (Except.error "reporter crash")
      = mainRun argsStatsOff (Except.ok ()) (Except.ok ()) (Except.ok ())
        (Except.ok ()) (Except.error "reporter crash") :=
  ⟨rfl, stats_args_no_effect_when_disabled argsStatsOff 99 false 7
    (Except.ok ()) (Except.ok ()) (Except.ok ()) (Except.ok ())
    (Except.error "reporter crash") rfl⟩

end Countersyncd
